import Mathlib

/-!
Shallow embedding of the NativeScript-Angular route-reuse strategy
(`ns-route-reuse-strategy.ts`), the `PageRouterOutlet` attach/detach
activation state (`page-router-outlet.ts`) and the action-bar child-list
management (`action-bar.ts`).

Modelling conventions:
* JS object references are modelled by `Nat` identities; reference
  equality (`===`) is equality of identities.
* Mutable fields become explicit state passing: each method returns its
  result together with the updated state.
* The JS array backing `DetachedStateCache` grows at the end
  (`push`/`pop`/`peek` operate on the last element); we represent it as a
  Lean `List` whose HEAD is the end (top) of the JS array, so `push` is
  cons, `pop` takes the head, `peek` reads the head.
* `cacheByOutlet` (a JS object used as a string-keyed map) is a function
  `String → Option Cache`.
* Thrown JS exceptions are modelled by an `Option String` error component
  alongside the state reached at the throw (JS does not roll back
  mutations performed before a throw).
* External collaborators that are not part of this repository
  (`NSLocationStrategy.getRouteFullPath` / `findOutlet` /
  `_modalNavigationDepth`, and the util `findTopActivatedRouteNodeForOutlet`)
  are abstract parameters collected in `StrategyEnv`; theorems quantify
  over them.
-/

/-- A single node of an Angular `ActivatedRouteSnapshot` chain.
`segment` models the node's string rendering used by
`pathFromRoot.join(sep)`; `routeConfig` is the identity of the
`routeConfig` object (`none` models JS `null`, e.g. the root route);
`pageRouterActivated` models the presence of the truthy
`pageRouterActivatedSymbol` marker on the snapshot. -/
structure RouteNode where
  segment : String
  routeConfig : Option Nat
  pageRouterActivated : Bool
deriving Repr, DecidableEq

/-- An `ActivatedRouteSnapshot`: a node together with its parent chain
(`.root` has `parent === null`). -/
inductive RouteSnapshot where
  | root (n : RouteNode)
  | child (n : RouteNode) (parent : RouteSnapshot)
deriving Repr, DecidableEq

namespace RouteSnapshot

/-- The node of the snapshot itself (its own fields). -/
def node : RouteSnapshot → RouteNode
  | .root n => n
  | .child n _ => n

/-- Source `snapshot.parent` (`none` models JS `null`). -/
def parent : RouteSnapshot → Option RouteSnapshot
  | .root _ => none
  | .child _ p => some p

/-- Source `snapshot.pathFromRoot`: the chain from the root down to this node. -/
def pathFromRoot : RouteSnapshot → List RouteNode
  | .root n => [n]
  | .child n p => pathFromRoot p ++ [n]

/-- Overwrite the `pageRouterActivatedSymbol` marker on the snapshot
itself (`future[pageRouterActivatedSymbol] = v`). -/
def setPageRouterActivated : RouteSnapshot → Bool → RouteSnapshot
  | .root n, v => .root { n with pageRouterActivated := v }
  | .child n p, v => .child { n with pageRouterActivated := v } p

end RouteSnapshot

/-- Source `getSnapshotKey` from `ns-route-reuse-strategy.ts`:
`snapshot.pathFromRoot.join(sep)` where the separator is a dash-arrow and
each element renders via its string form (modelled by `segment`). -/
def getSnapshotKey (snapshot : RouteSnapshot) : String :=
  String.intercalate "->" ((snapshot.pathFromRoot).map RouteNode.segment)

/-- The identity of an Angular `DetachedRouteHandle`; `componentRef`
is `none` when the handle has no `componentRef` property (the caches
throw on such handles when destroying). -/
structure Handle where
  componentRef : Option Nat
deriving Repr, DecidableEq

/-- Source `CacheItem` from `ns-route-reuse-strategy.ts`. -/
structure CacheItem where
  key : String
  state : Handle
  isModal : Bool
deriving Repr, DecidableEq

/-- The `cache` array of a `DetachedStateCache`; the list HEAD is the END
of the JS array (the top of the stack). -/
abbrev Cache := List CacheItem

namespace DetachedStateCache

/-- Source `DetachedStateCache.length`. -/
def length (c : Cache) : Nat := c.length

/-- Source `DetachedStateCache.push`: `this.cache.push(cacheItem)` appends at
the end of the JS array, i.e. at the head of our list. -/
def push (c : Cache) (cacheItem : CacheItem) : Cache := cacheItem :: c

/-- Source `DetachedStateCache.pop`: `this.cache.pop()` removes and returns the
last JS element (`none` models the `undefined` returned on an empty
array). -/
def pop (c : Cache) : Option CacheItem × Cache := (c.head?, c.tail)

/-- Source `DetachedStateCache.peek`: `this.cache[this.cache.length - 1]`
(`none` models `undefined` on an empty array). -/
def peek (c : Cache) : Option CacheItem := c.head?

/-- The loop body of `clearModalCache` once `hasModalPages` holds:
repeatedly `peek`, destroy the component ref, `pop`, and stop after
popping the first item whose `isModal` is set.  Returns the destroyed
items (in destruction order) and the remaining cache; errors model the
thrown `Error` when a handle has no `componentRef` (and the `TypeError`
of reading a property of `undefined` when `peek` returns nothing, which
is unreachable while a modal item remains below). -/
def clearModalLoop : Cache → Except String (List CacheItem × Cache)
  | [] => .error "TypeError: cannot read properties of undefined"
  | cacheItem :: rest =>
    if cacheItem.state.componentRef.isNone then
      .error "No componentRef found in DetachedRouteHandle"
    else if cacheItem.isModal then
      .ok ([cacheItem], rest)
    else
      match clearModalLoop rest with
      | .error e => .error e
      | .ok (destroyed, remaining) => .ok (cacheItem :: destroyed, remaining)

/-- Source `DetachedStateCache.clearModalCache`: when some cached item is modal,
destroy and pop items from the top down to and including the topmost
modal item; otherwise do nothing. -/
def clearModalCache (c : Cache) : Except String (List CacheItem × Cache) :=
  if c.any (fun cacheItem => cacheItem.isModal) then clearModalLoop c
  else .ok ([], c)

end DetachedStateCache

/-- An `Outlet` of `NSLocationStrategy` (external to this repository) as
seen by the strategy code: the fields `ns-route-reuse-strategy.ts` reads
and writes.  `parent` is the identity of the parent outlet in the outlet
heap. -/
structure Outlet where
  isPageNavigationBack : Bool
  shouldDetach : Bool
  parent : Option Nat
  outletKeys : List String
deriving Repr, DecidableEq

/-- The abstract environment of a strategy call: the external
collaborators of `NSRouteReuseStrategy`.  `findTop` models
`findTopActivatedRouteNodeForOutlet`; `getRouteFullPath` and
`findOutlet` model the `NSLocationStrategy` methods (`findOutlet`
returns the identity of an outlet in the heap); `modalNavigationDepth`
models `location._modalNavigationDepth`. -/
structure StrategyEnv where
  findTop : RouteSnapshot → RouteSnapshot
  getRouteFullPath : RouteSnapshot → String
  findOutlet : String → RouteSnapshot → Option Nat
  modalNavigationDepth : Int

/-- The mutable state touched by `NSRouteReuseStrategy`: its own
`cacheByOutlet` map and the heap of outlets (whose `shouldDetach` flags
the strategy mutates). -/
structure StrategyState where
  cacheByOutlet : String → Option Cache
  outlets : Nat → Outlet

namespace NSRouteReuseStrategy

/-- First loop of `findValidOutletAndKey`: walk `route` upward until
`location.findOutlet(getRouteFullPath(route), route)` yields an outlet;
return that outlet, the key it was found under, and the route reached
(`none` when the walk exhausts the chain). -/
def findOutletLoop (env : StrategyEnv) : RouteSnapshot → Option (Nat × String × RouteSnapshot)
  | .root n =>
    match env.findOutlet (env.getRouteFullPath (.root n)) (.root n) with
    | some o => some (o, env.getRouteFullPath (.root n), .root n)
    | none => none
  | .child n p =>
    match env.findOutlet (env.getRouteFullPath (.child n p)) (.child n p) with
    | some o => some (o, env.getRouteFullPath (.child n p), .child n p)
    | none => findOutletLoop env p

/-- Second loop of `findValidOutletAndKey`: starting from the route and
key at which the outlet was found, walk upward until the outlet's
`outletKeys` includes the current key; when the chain is exhausted the
ORIGINAL route's full path is returned. -/
def findKeyLoop (env : StrategyEnv) (st : StrategyState) (outlet : Nat) (routeOutletKey : String) : RouteSnapshot → String → String
  | .root _, outletKey =>
    if ((st.outlets outlet).outletKeys).contains outletKey then outletKey
    else routeOutletKey
  | .child _ p, outletKey =>
    if ((st.outlets outlet).outletKeys).contains outletKey then outletKey
    else findKeyLoop env st outlet routeOutletKey p (env.getRouteFullPath p)

/-- Source `NSRouteReuseStrategy.findValidOutletAndKey`. -/
def findValidOutletAndKey (env : StrategyEnv) (st : StrategyState) (targetRoute : RouteSnapshot) : Option Nat × String :=
  let routeOutletKey := env.getRouteFullPath targetRoute
  match findOutletLoop env targetRoute with
  | none => (none, routeOutletKey)
  | some (outlet, outletKey, r) =>
    (some outlet, findKeyLoop env st outlet routeOutletKey r outletKey)

/-- The `isPageActivated` loop of `shouldDetach`: walk from the route up
through its parents; the loop ends at the first truthy
`pageRouterActivatedSymbol` marker or at the root, leaving
`isPageActivated` truthy exactly when some node of the chain carries the
marker. -/
def isPageActivatedChain : RouteSnapshot → Bool
  | .root n => n.pageRouterActivated
  | .child n p => n.pageRouterActivated || isPageActivatedChain p

/-- Write the `shouldDetach` flag of outlet `oid` in the heap
(`outlet.shouldDetach = v`). -/
def setOutletShouldDetach (st : StrategyState) (oid : Nat) (v : Bool) : StrategyState :=
  { st with outlets := fun i => if i = oid then { st.outlets oid with shouldDetach := v } else st.outlets i }

/-- Source `NSRouteReuseStrategy.shouldDetach`: resolve the outlet, compute
`outlet && !isBack && isPageActivated`, veto when the outlet's parent
exists and has a cleared `shouldDetach` flag, record the decision on the
outlet (when one was found) and return it.  `null`/`undefined` JS
results coerce to `false`. -/
def shouldDetach (env : StrategyEnv) (st : StrategyState) (route0 : RouteSnapshot) : Bool × StrategyState :=
  let route := env.findTop route0
  match (findValidOutletAndKey env st route).1 with
  | none => (false, st)
  | some oid =>
    let o := st.outlets oid
    let isBack := o.isPageNavigationBack
    let raw := !isBack && isPageActivatedChain route
    let result :=
      match o.parent with
      | some pid => if !(st.outlets pid).shouldDetach then false else raw
      | none => raw
    (result, setOutletShouldDetach st oid result)

/-- Source `NSRouteReuseStrategy.shouldAttach`: when no cache exists for the
resolved outlet key, return `false` immediately (in particular WITHOUT
touching the outlet); otherwise return
`isBack && cache.peek()?.key === key` and set the resolved outlet's
`shouldDetach` flag to `true` when an outlet was found. -/
def shouldAttach (env : StrategyEnv) (st : StrategyState) (route0 : RouteSnapshot) : Bool × StrategyState :=
  let route := env.findTop route0
  let found := findValidOutletAndKey env st route
  match st.cacheByOutlet found.2 with
  | none => (false, st)
  | some cache =>
    let key := getSnapshotKey route
    let isBack :=
      match found.1 with
      | some oid => (st.outlets oid).isPageNavigationBack
      | none => false
    let result := isBack &&
      (match DetachedStateCache.peek cache with
       | some item => item.key == key
       | none => false)
    match found.1 with
    | some oid => (result, setOutletShouldDetach st oid true)
    | none => (result, st)

/-- Source `NSRouteReuseStrategy.store`: with a non-null handle, push
`{ key, state, isModal }` onto the cache of the resolved outlet key
(creating the cache when absent; `isModal` is set exactly when
`location._modalNavigationDepth > 0`).  With a null handle, pop the top
item when its key matches the route's snapshot key, deleting the
per-outlet cache once empty; on a key mismatch throw.  The returned
`Option String` is the thrown error (`none` on success) and the returned
state is the state at return or at the throw (JS keeps mutations made
before a throw: the `cacheByOutlet[outletKey] = existing || new` line
runs first, so a fresh empty cache is inserted even on the
`undefined.key` TypeError path). -/
def store (env : StrategyEnv) (st : StrategyState) (route0 : RouteSnapshot) (state? : Option Handle) : StrategyState × Option String :=
  let route := env.findTop route0
  let key := getSnapshotKey route
  let outletKey := (findValidOutletAndKey env st route).2
  let cache := (st.cacheByOutlet outletKey).getD []
  let map0 : String → Option Cache :=
    match st.cacheByOutlet outletKey with
    | some _ => st.cacheByOutlet
    | none => fun k => if k = outletKey then some [] else st.cacheByOutlet k
  match state? with
  | some s =>
    let isModal : Bool := env.modalNavigationDepth > 0
    ({ st with cacheByOutlet := fun k =>
        if k = outletKey then some (DetachedStateCache.push cache { key := key, state := s, isModal := isModal })
        else map0 k }, none)
  | none =>
    match DetachedStateCache.peek cache with
    | none =>
      ({ st with cacheByOutlet := map0 },
       some "TypeError: cannot read properties of undefined")
    | some topItem =>
      if topItem.key = key then
        let cache1 := (DetachedStateCache.pop cache).2
        if DetachedStateCache.length cache1 = 0 then
          ({ st with cacheByOutlet := fun k => if k = outletKey then none else map0 k }, none)
        else
          ({ st with cacheByOutlet := fun k => if k = outletKey then some cache1 else map0 k }, none)
      else
        ({ st with cacheByOutlet := map0 },
         some "Trying to pop from DetachedStateCache but keys do not match")

/-- Source `NSRouteReuseStrategy.retrieve`: when a cache exists for the
resolved outlet key and the resolved outlet is navigating back and the
top cached item's key equals the route's snapshot key, return the top
item's handle; otherwise return `null`.  The method performs no
mutation, so the state is returned unchanged. -/
def retrieve (env : StrategyEnv) (st : StrategyState) (route0 : RouteSnapshot) : Option Handle × StrategyState :=
  let route := env.findTop route0
  let found := findValidOutletAndKey env st route
  match st.cacheByOutlet found.2 with
  | none => (none, st)
  | some cache =>
    let key := getSnapshotKey route
    let isBack :=
      match found.1 with
      | some oid => (st.outlets oid).isPageNavigationBack
      | none => false
    match DetachedStateCache.peek cache with
    | some cachedItem =>
      (if isBack && cachedItem.key == key then some cachedItem.state else none, st)
    | none => (none, st)

/-- Source `NSRouteReuseStrategy.shouldReuseRoute`: reuse exactly when the two
snapshots hold the identical `routeConfig` reference; when reusing and
the current snapshot carries the `pageRouterActivatedSymbol` marker,
copy the marker onto the future snapshot (returned as the updated
future). -/
def shouldReuseRoute (future curr : RouteSnapshot) : Bool × RouteSnapshot :=
  let shouldReuse := future.node.routeConfig == curr.node.routeConfig
  let future1 :=
    if shouldReuse && curr.node.pageRouterActivated then
      future.setPageRouterActivated curr.node.pageRouterActivated
    else future
  (shouldReuse, future1)

end NSRouteReuseStrategy

/-! ## `PageRouterOutlet` activation state (`page-router-outlet.ts`)

`detach`/`attach` also interact with change detection
(`hostView.detach`, `markForCheck`, `reattach`), emit events and (for
`attach`) call `markActivatedRoute` and possibly
`_finishBackPageNavigation` on the location strategy; those collaborators
are outside the outlet's own activation state, which is what the
round-trip property is about.  `activated` is the identity of the
activated `ComponentRef` (`none` models `null`); `activatedRoute` the
identity of `_activatedRoute`. -/

structure PageRouterOutletState where
  activated : Option Nat
  activatedRoute : Option Nat
deriving Repr, DecidableEq

namespace PageRouterOutlet

/-- Source `PageRouterOutlet.detach`: on a non-activated outlet return
`undefined` (`none`) and change nothing; otherwise clear `activated` and
`_activatedRoute` and return the previously activated component ref. -/
def detach (s : PageRouterOutletState) : Option Nat × PageRouterOutletState :=
  match s.activated with
  | none => (none, s)
  | some component => (some component, { s with activated := none, activatedRoute := none })

/-- Source `PageRouterOutlet.attach`: set `activated` to the given component
ref and `_activatedRoute` to the given route. -/
def attach (s : PageRouterOutletState) (ref : Nat) (activatedRoute : Nat) : PageRouterOutletState :=
  { s with activated := some ref, activatedRoute := some activatedRoute }

end PageRouterOutlet

/-! ## Action-bar child-list management (`action-bar.ts`)

Children reaching `actionBarMeta.insertChild` / `removeChild` are
invisible nodes, `NavigationButton`s, `ActionItem`s, other views (title
views) or non-view nodes; the kinds are decided by `isInvisibleNode`,
`isNavigationButton`, `isActionItem`, `isView` in that order, modelled
by a disjoint inductive.  The `ActionItems` collection of the toolkit is
modelled as the list of item identities: `addItem` appends, `removeItem`
removes the first occurrence, `getItems`/`setItems` expose and replace
the list — matching the toolkit collection the source manipulates.  The
`child.parentNode` bookkeeping mutates the child, not the action bar,
and is not part of the bar state modelled here. -/

structure NgActionBar where
  navigationButton : Option Nat
  actionItems : List Nat
  titleView : Option Nat
deriving Repr, DecidableEq

/-- The kinds of children dispatched by `insertChild`/`removeChild`. -/
inductive NgChild where
  | invisible (id : Nat)
  | navButton (id : Nat)
  | actionItem (id : Nat)
  | view (id : Nat)
  | other (id : Nat)
deriving Repr, DecidableEq

namespace ActionBar

/-- JS `Array.prototype.indexOf`: index of the first occurrence, `-1`
when absent. -/
def jsIndexOf (l : List Nat) (x : Nat) : Int :=
  match l with
  | [] => -1
  | a :: t =>
    if a = x then 0
    else
      let r := jsIndexOf t x
      if r < 0 then -1 else r + 1

/-- Source `insertActionItemBefore`: `splice(indexOf(next), 0, item)` on the
item collection.  A negative JS splice index counts from the end
(`length - 1` for `-1`, clamped at `0`), which `Nat` subtraction
matches. -/
def insertActionItemBefore (bar : NgActionBar) (item : Nat) (next : Nat) : NgActionBar :=
  let actionItemsCollection := bar.actionItems
  let indexToInsert := jsIndexOf actionItemsCollection next
  let pos : Nat := if indexToInsert < 0 then actionItemsCollection.length - 1 else indexToInsert.toNat
  { bar with actionItems := actionItemsCollection.take pos ++ item :: actionItemsCollection.drop pos }

/-- Source `appendActionItem`: `bar.actionItems.addItem(item)`. -/
def appendActionItem (bar : NgActionBar) (item : Nat) : NgActionBar :=
  { bar with actionItems := bar.actionItems ++ [item] }

/-- Source `addActionItem`: insert before `next` when given, else append. -/
def addActionItem (bar : NgActionBar) (item : Nat) (next : Option Nat) : NgActionBar :=
  match next with
  | some n => insertActionItemBefore bar item n
  | none => appendActionItem bar item

/-- Source `actionBarMeta.insertChild`. -/
def insertChild (parent : NgActionBar) (child : NgChild) (next : Option Nat) : NgActionBar :=
  match child with
  | .invisible _ => parent
  | .navButton id => { parent with navigationButton := some id }
  | .actionItem id => addActionItem parent id next
  | .view id => { parent with titleView := some id }
  | .other _ => parent

/-- Source `actionBarMeta.removeChild`. -/
def removeChild (parent : NgActionBar) (child : NgChild) : NgActionBar :=
  match child with
  | .invisible _ => parent
  | .navButton id =>
    if parent.navigationButton = some id then { parent with navigationButton := none }
    else parent
  | .actionItem id => { parent with actionItems := parent.actionItems.erase id }
  | .view id =>
    if parent.titleView = some id then { parent with titleView := none }
    else parent
  | .other _ => parent

end ActionBar

/-! ## Concrete fixtures used by witnesses and counterexamples -/

/-- An environment whose location strategy resolves every route to
outlet `0` under the key `"o"`, with no modal navigation in flight. -/
def envW : StrategyEnv :=
  { findTop := fun s => s
    getRouteFullPath := fun _ => "o"
    findOutlet := fun _ _ => some 0
    modalNavigationDepth := 0 }

/-- A parentless outlet that is not navigating back, key `"o"`. -/
def outletW : Outlet :=
  { isPageNavigationBack := false, shouldDetach := false, parent := none, outletKeys := ["o"] }

/-- A parentless outlet that IS navigating back, key `"o"`. -/
def outletB : Outlet :=
  { isPageNavigationBack := true, shouldDetach := false, parent := none, outletKeys := ["o"] }

/-- A root route snapshot carrying the page-router-activated marker;
its snapshot key is `"r"`. -/
def rW : RouteSnapshot := .root ⟨"r", some 1, true⟩

/-- A cache item whose key matches `rW`'s snapshot key. -/
def itemW : CacheItem := ⟨"r", ⟨some 7⟩, false⟩

/-- State with an empty `cacheByOutlet` and every outlet slot holding
`outletW`. -/
def stW : StrategyState := { cacheByOutlet := fun _ => none, outlets := fun _ => outletW }

/-- State whose outlet-`"o"` cache holds exactly `itemW` and whose
outlets are all back-navigating. -/
def stB : StrategyState :=
  { cacheByOutlet := fun k => if k = "o" then some [itemW] else none
    outlets := fun _ => outletB }

/-- State whose outlet-`"o"` cache holds a single item whose key `"z"`
differs from `rW`'s snapshot key, outlets all back-navigating. -/
def stZ : StrategyState :=
  { cacheByOutlet := fun k => if k = "o" then some [⟨"z", ⟨some 7⟩, false⟩] else none
    outlets := fun _ => outletB }

/-! ## Theorems -/

/-- C6: `DetachedStateCache` behaves as a LIFO stack: `push` increases
`length` by exactly one and makes `peek` return the pushed item, and
`pop` after a `push` returns the pushed item and restores the cache to
its state before that push.  `peek` is a pure function of the cache (it
returns a value and no updated state), so it never modifies the
cache. -/
theorem C6_cache_stack_laws (c : Cache) (i : CacheItem) :
    DetachedStateCache.length (DetachedStateCache.push c i) = DetachedStateCache.length c + 1 ∧
    DetachedStateCache.peek (DetachedStateCache.push c i) = some i ∧
    DetachedStateCache.pop (DetachedStateCache.push c i) = (some i, c) :=
  ⟨rfl, rfl, rfl⟩

/-- C7: `shouldReuseRoute` returns `true` exactly when the future and
current snapshots hold the identical `routeConfig` reference (identity
modelled by equality of `Option Nat` identities, `none` being JS
`null`); and when it returns `true` and the current snapshot carries the
`pageRouterActivatedSymbol` marker, the marker is copied onto the future
snapshot. -/
theorem C7_shouldReuseRoute_spec (future curr : RouteSnapshot) :
    ((NSRouteReuseStrategy.shouldReuseRoute future curr).1 = true ↔
      future.node.routeConfig = curr.node.routeConfig) ∧
    (future.node.routeConfig = curr.node.routeConfig →
      curr.node.pageRouterActivated = true →
      ((NSRouteReuseStrategy.shouldReuseRoute future curr).2).node.pageRouterActivated = true) := by
  unfold NSRouteReuseStrategy.shouldReuseRoute
  refine ⟨by simp, ?_⟩
  intro h hm
  simp only [h, hm, beq_self_eq_true, Bool.true_and, if_true]
  cases future <;> simp [RouteSnapshot.setPageRouterActivated, RouteSnapshot.node, hm]

/-- Witness for C7 at concrete snapshots sharing a `routeConfig`
identity, the current one carrying the marker. -/
theorem C7_shouldReuseRoute_spec_witness :
    (NSRouteReuseStrategy.shouldReuseRoute (.root ⟨"a", some 1, false⟩) (.root ⟨"b", some 1, true⟩)).1 = true ∧
    ((NSRouteReuseStrategy.shouldReuseRoute (.root ⟨"a", some 1, false⟩) (.root ⟨"b", some 1, true⟩)).2).node.pageRouterActivated = true :=
  ⟨(C7_shouldReuseRoute_spec (.root ⟨"a", some 1, false⟩) (.root ⟨"b", some 1, true⟩)).1.mpr (by decide),
   (C7_shouldReuseRoute_spec (.root ⟨"a", some 1, false⟩) (.root ⟨"b", some 1, true⟩)).2 (by decide) (by decide)⟩

/-- The `clearModalCache` loop on a cache of the form
`pre ++ item :: post` with no modal item in `pre` and `item` modal
destroys exactly `pre ++ [item]` and leaves `post`. -/
theorem clearModalLoop_spec (pre : Cache) (item : CacheItem) (post : Cache)
    (hpre : ∀ x ∈ pre, x.isModal = false)
    (hrefs : ∀ x ∈ pre, x.state.componentRef.isSome = true)
    (hitem : item.state.componentRef.isSome = true)
    (hm : item.isModal = true) :
    DetachedStateCache.clearModalLoop (pre ++ item :: post) = .ok (pre ++ [item], post) := by
  induction pre with
  | nil =>
    cases hr : item.state.componentRef with
    | none => rw [hr] at hitem; simp at hitem
    | some cref =>
      simp [DetachedStateCache.clearModalLoop, hr, hm]
  | cons x rest ih =>
    have hx : x.isModal = false := hpre x (by simp)
    have hxr : x.state.componentRef.isSome = true := hrefs x (by simp)
    cases hr : x.state.componentRef with
    | none => rw [hr] at hxr; simp at hxr
    | some cref =>
      have ih1 := ih (fun y hy => hpre y (by simp [hy])) (fun y hy => hrefs y (by simp [hy]))
      simp [DetachedStateCache.clearModalLoop, hr, hx, ih1]

/-- C8: `clearModalCache` leaves the cache unchanged (and destroys
nothing) when no cached item is modal; otherwise, writing the cache as
`pre ++ item :: post` with `item` the topmost modal item (no item of
`pre` above it is modal), it pops and destroys exactly `pre ++ [item]`
— the items from the top of the stack down to and including the topmost
modal item — leaving every item of `post` below untouched.  Hypothesis:
every cached handle has a `componentRef` (otherwise the code throws). -/
theorem C8_clearModalCache_spec (c : Cache)
    (hall : ∀ i ∈ c, i.state.componentRef.isSome = true) :
    ((∀ i ∈ c, i.isModal = false) → DetachedStateCache.clearModalCache c = .ok ([], c)) ∧
    (∀ pre item post, c = pre ++ item :: post →
      (∀ x ∈ pre, x.isModal = false) → item.isModal = true →
      DetachedStateCache.clearModalCache c = .ok (pre ++ [item], post)) := by
  constructor
  · intro hnone
    have : c.any (fun cacheItem => cacheItem.isModal) = false := by
      simp only [List.any_eq_false]
      intro x hx
      simp [hnone x hx]
    simp [DetachedStateCache.clearModalCache, this]
  · intro pre item post hc hpre hm
    have hany : c.any (fun cacheItem => cacheItem.isModal) = true := by
      subst hc
      refine List.any_eq_true.mpr ⟨item, by simp, by simp [hm]⟩
    rw [DetachedStateCache.clearModalCache, hany, if_pos rfl, hc]
    exact clearModalLoop_spec pre item post hpre
      (fun y hy => hall y (by simp [hc, hy]))
      (hall item (by simp [hc])) hm

/-- Witness for C8 on a concrete three-item cache whose middle item is
modal: the top two items are destroyed, the bottom one stays. -/
theorem C8_clearModalCache_spec_witness :
    DetachedStateCache.clearModalCache
      [⟨"a", ⟨some 1⟩, false⟩, ⟨"b", ⟨some 2⟩, true⟩, ⟨"c", ⟨some 3⟩, false⟩] =
      .ok ([⟨"a", ⟨some 1⟩, false⟩, ⟨"b", ⟨some 2⟩, true⟩], [⟨"c", ⟨some 3⟩, false⟩]) :=
  (C8_clearModalCache_spec
      [⟨"a", ⟨some 1⟩, false⟩, ⟨"b", ⟨some 2⟩, true⟩, ⟨"c", ⟨some 3⟩, false⟩]
      (by decide)).2
    [⟨"a", ⟨some 1⟩, false⟩] ⟨"b", ⟨some 2⟩, true⟩ [⟨"c", ⟨some 3⟩, false⟩]
    (by decide) (by decide) (by decide)

/-- C1: `retrieve` returns the handle at the top of the per-outlet cache
exactly when the resolved outlet is performing a page back navigation
and the top cached item's key equals the route's snapshot key
(`pathFromRoot` joined by the dash-arrow separator); in every other case
(no cache for the resolved outlet key, no outlet or not a back
navigation, or differing keys) it returns `null`; the state — in
particular every per-outlet cache — is left unchanged. -/
theorem C1_retrieve_spec (env : StrategyEnv) (st : StrategyState) (r : RouteSnapshot) :
    (NSRouteReuseStrategy.retrieve env st r).2 = st ∧
    ∀ h : Handle,
      ((NSRouteReuseStrategy.retrieve env st r).1 = some h ↔
        ∃ oid, (NSRouteReuseStrategy.findValidOutletAndKey env st (env.findTop r)).1 = some oid ∧
          (st.outlets oid).isPageNavigationBack = true ∧
          ∃ cache, st.cacheByOutlet (NSRouteReuseStrategy.findValidOutletAndKey env st (env.findTop r)).2 = some cache ∧
            ∃ item, DetachedStateCache.peek cache = some item ∧
              item.key = getSnapshotKey (env.findTop r) ∧ item.state = h) := by
  refine ⟨?_, fun h => ?_⟩
  · simp only [NSRouteReuseStrategy.retrieve]
    split
    · rfl
    · split <;> rfl
  · cases hc : st.cacheByOutlet (NSRouteReuseStrategy.findValidOutletAndKey env st (env.findTop r)).2 with
    | none => simp [NSRouteReuseStrategy.retrieve, hc]
    | some cache =>
      cases ho : (NSRouteReuseStrategy.findValidOutletAndKey env st (env.findTop r)).1 with
      | none =>
        cases hp : DetachedStateCache.peek cache <;>
          simp [NSRouteReuseStrategy.retrieve, hc, ho, hp]
      | some oid =>
        cases hp : DetachedStateCache.peek cache with
        | none => simp [NSRouteReuseStrategy.retrieve, hc, ho, hp]
        | some item =>
          by_cases hb : (st.outlets oid).isPageNavigationBack = true
          · by_cases hk : item.key = getSnapshotKey (env.findTop r)
            · simp [NSRouteReuseStrategy.retrieve, hc, ho, hp, hb, hk]
            · simp [NSRouteReuseStrategy.retrieve, hc, ho, hp, hb, hk]
          · have hb2 : (st.outlets oid).isPageNavigationBack = false :=
              Bool.not_eq_true _ ▸ Bool.of_not_eq_true hb
            simp [NSRouteReuseStrategy.retrieve, hc, ho, hp, hb2]

/-- Witness for C1: with outlet `0` back-navigating and the top cached
item keyed like the route, `retrieve` returns that item's handle. -/
theorem C1_retrieve_spec_witness :
    (NSRouteReuseStrategy.retrieve envW stB rW).1 = some ⟨some 7⟩ :=
  ((C1_retrieve_spec envW stB rW).2 ⟨some 7⟩).mpr
    ⟨0, by decide, by decide, [itemW], by decide, itemW, by decide, by decide, by decide⟩

/-- C2: `shouldDetach` returns `true` only when a valid outlet is found
for the route, that outlet is not performing a page back navigation, the
route or one of its ancestors carries the page-router-activated marker,
and the outlet's parent (when present) has its `shouldDetach` flag set;
and whenever a valid outlet is found, the computed decision is recorded
in that outlet's `shouldDetach` flag. -/
theorem C2_shouldDetach_spec (env : StrategyEnv) (st : StrategyState) (r : RouteSnapshot) :
    ((NSRouteReuseStrategy.shouldDetach env st r).1 = true →
      ∃ oid, (NSRouteReuseStrategy.findValidOutletAndKey env st (env.findTop r)).1 = some oid ∧
        (st.outlets oid).isPageNavigationBack = false ∧
        NSRouteReuseStrategy.isPageActivatedChain (env.findTop r) = true ∧
        ∀ pid, (st.outlets oid).parent = some pid → (st.outlets pid).shouldDetach = true) ∧
    (∀ oid, (NSRouteReuseStrategy.findValidOutletAndKey env st (env.findTop r)).1 = some oid →
      ((NSRouteReuseStrategy.shouldDetach env st r).2.outlets oid).shouldDetach =
        (NSRouteReuseStrategy.shouldDetach env st r).1) := by
  cases ho : (NSRouteReuseStrategy.findValidOutletAndKey env st (env.findTop r)).1 with
  | none => simp [NSRouteReuseStrategy.shouldDetach, ho]
  | some oid =>
    constructor
    · intro htrue
      simp only [NSRouteReuseStrategy.shouldDetach, ho] at htrue
      cases hpar : (st.outlets oid).parent with
      | none =>
        simp only [hpar, Bool.and_eq_true, Bool.not_eq_true'] at htrue
        exact ⟨oid, rfl, htrue.1, htrue.2, fun pid hpid => by rw [hpar] at hpid; cases hpid⟩
      | some pid =>
        simp only [hpar] at htrue
        by_cases hpd : (st.outlets pid).shouldDetach = true
        · simp only [hpd, Bool.not_true, Bool.false_eq_true, if_false,
            Bool.and_eq_true, Bool.not_eq_true'] at htrue
          refine ⟨oid, rfl, htrue.1, htrue.2, fun pid2 hpid2 => ?_⟩
          rw [hpar] at hpid2
          cases hpid2
          exact hpd
        · rw [Bool.not_eq_true] at hpd
          simp [hpd] at htrue
    · intro oid2 hoid2
      cases hoid2
      simp [NSRouteReuseStrategy.shouldDetach, ho, NSRouteReuseStrategy.setOutletShouldDetach]

/-- Witness for C2: outlet `0` is valid, forward-navigating, parentless,
and the route carries the marker; the decision is recorded on the
outlet. -/
theorem C2_shouldDetach_spec_witness :
    (∃ oid, (NSRouteReuseStrategy.findValidOutletAndKey envW stW (envW.findTop rW)).1 = some oid ∧
      (stW.outlets oid).isPageNavigationBack = false ∧
      NSRouteReuseStrategy.isPageActivatedChain (envW.findTop rW) = true ∧
      ∀ pid, (stW.outlets oid).parent = some pid → (stW.outlets pid).shouldDetach = true) ∧
    ((NSRouteReuseStrategy.shouldDetach envW stW rW).2.outlets 0).shouldDetach =
      (NSRouteReuseStrategy.shouldDetach envW stW rW).1 :=
  ⟨(C2_shouldDetach_spec envW stW rW).1 (by decide),
   (C2_shouldDetach_spec envW stW rW).2 0 (by decide)⟩

/-- Counterexample to C3 as stated: a valid outlet (id `0`) is found for
the route, but because no cache exists for the resolved outlet key the
method returns early and the outlet's `shouldDetach` flag is NOT set to
`true` — it stays `false`. -/
theorem C3_shouldAttach_counterexample :
    (NSRouteReuseStrategy.findValidOutletAndKey envW stW (envW.findTop rW)).1 = some 0 ∧
    stW.cacheByOutlet (NSRouteReuseStrategy.findValidOutletAndKey envW stW (envW.findTop rW)).2 = none ∧
    ((NSRouteReuseStrategy.shouldAttach envW stW rW).2.outlets 0).shouldDetach = false := by
  decide

/-- C3 (amended): `shouldAttach` returns `true` exactly when a cache
exists for the route's resolved outlet key, the resolved outlet is
performing a page back navigation, and the top cached item's key equals
the route's snapshot key; when no cache exists for the outlet key it
returns `false` without reading the cache AND WITHOUT TOUCHING THE
OUTLET; and whenever a valid outlet is found AND A CACHE EXISTS FOR THE
RESOLVED OUTLET KEY, it sets that outlet's `shouldDetach` flag to `true`
regardless of the returned value. -/
theorem C3_shouldAttach_spec (env : StrategyEnv) (st : StrategyState) (r : RouteSnapshot) :
    (st.cacheByOutlet (NSRouteReuseStrategy.findValidOutletAndKey env st (env.findTop r)).2 = none →
      NSRouteReuseStrategy.shouldAttach env st r = (false, st)) ∧
    (∀ cache, st.cacheByOutlet (NSRouteReuseStrategy.findValidOutletAndKey env st (env.findTop r)).2 = some cache →
      ((NSRouteReuseStrategy.shouldAttach env st r).1 = true ↔
        (∃ oid, (NSRouteReuseStrategy.findValidOutletAndKey env st (env.findTop r)).1 = some oid ∧
          (st.outlets oid).isPageNavigationBack = true) ∧
        (∃ item, DetachedStateCache.peek cache = some item ∧
          item.key = getSnapshotKey (env.findTop r))) ∧
      (∀ oid, (NSRouteReuseStrategy.findValidOutletAndKey env st (env.findTop r)).1 = some oid →
        ((NSRouteReuseStrategy.shouldAttach env st r).2.outlets oid).shouldDetach = true)) := by
  constructor
  · intro hc
    simp [NSRouteReuseStrategy.shouldAttach, hc]
  · intro cache hc
    cases ho : (NSRouteReuseStrategy.findValidOutletAndKey env st (env.findTop r)).1 with
    | none =>
      refine ⟨?_, fun oid hoid => by cases hoid⟩
      cases hp : DetachedStateCache.peek cache <;>
        simp [NSRouteReuseStrategy.shouldAttach, hc, ho, hp]
    | some oid =>
      constructor
      · cases hp : DetachedStateCache.peek cache with
        | none => simp [NSRouteReuseStrategy.shouldAttach, hc, ho, hp]
        | some item =>
          by_cases hb : (st.outlets oid).isPageNavigationBack = true
          · by_cases hk : item.key = getSnapshotKey (env.findTop r)
            · simp [NSRouteReuseStrategy.shouldAttach, hc, ho, hp, hb, hk]
            · simp [NSRouteReuseStrategy.shouldAttach, hc, ho, hp, hb, hk]
          · have hb2 : (st.outlets oid).isPageNavigationBack = false :=
              Bool.not_eq_true _ ▸ Bool.of_not_eq_true hb
            simp [NSRouteReuseStrategy.shouldAttach, hc, ho, hp, hb2]
      · intro oid2 hoid2
        cases hoid2
        simp [NSRouteReuseStrategy.shouldAttach, hc, ho, NSRouteReuseStrategy.setOutletShouldDetach]

/-- Witness for C3 (amended): with a cache whose top item is keyed like
the back-navigated route, `shouldAttach` answers `true` and records
`shouldDetach := true` on outlet `0`. -/
theorem C3_shouldAttach_spec_witness :
    ((NSRouteReuseStrategy.shouldAttach envW stB rW).1 = true ↔
      (∃ oid, (NSRouteReuseStrategy.findValidOutletAndKey envW stB (envW.findTop rW)).1 = some oid ∧
        (stB.outlets oid).isPageNavigationBack = true) ∧
      (∃ item, DetachedStateCache.peek [itemW] = some item ∧
        item.key = getSnapshotKey (envW.findTop rW))) ∧
    ((NSRouteReuseStrategy.shouldAttach envW stB rW).2.outlets 0).shouldDetach = true :=
  ⟨((C3_shouldAttach_spec envW stB rW).2 [itemW] (by decide)).1,
   ((C3_shouldAttach_spec envW stB rW).2 [itemW] (by decide)).2 0 (by decide)⟩

/-- C4: for every route and non-null handle, `store` pushes exactly one
entry onto the cache for the route's resolved outlet key (creating that
cache when it does not yet exist), whose key is the route's snapshot key
and whose `isModal` flag is `true` exactly when the location strategy's
`_modalNavigationDepth` is greater than zero; no error is thrown, all
other per-outlet caches are unchanged and the outlets are untouched. -/
theorem C4_store_push_spec (env : StrategyEnv) (st : StrategyState) (r : RouteSnapshot) (h : Handle) :
    (NSRouteReuseStrategy.store env st r (some h)).2 = none ∧
    (NSRouteReuseStrategy.store env st r (some h)).1.cacheByOutlet
        (NSRouteReuseStrategy.findValidOutletAndKey env st (env.findTop r)).2 =
      some (DetachedStateCache.push
        ((st.cacheByOutlet (NSRouteReuseStrategy.findValidOutletAndKey env st (env.findTop r)).2).getD [])
        { key := getSnapshotKey (env.findTop r), state := h,
          isModal := decide (env.modalNavigationDepth > 0) }) ∧
    (∀ k, k ≠ (NSRouteReuseStrategy.findValidOutletAndKey env st (env.findTop r)).2 →
      (NSRouteReuseStrategy.store env st r (some h)).1.cacheByOutlet k = st.cacheByOutlet k) ∧
    (NSRouteReuseStrategy.store env st r (some h)).1.outlets = st.outlets := by
  refine ⟨rfl, ?_, ?_, rfl⟩
  · simp [NSRouteReuseStrategy.store]
  · intro k hk
    cases hc : st.cacheByOutlet (NSRouteReuseStrategy.findValidOutletAndKey env st (env.findTop r)).2 with
    | none => simp [NSRouteReuseStrategy.store, hc, hk]
    | some cache => simp [NSRouteReuseStrategy.store, hc, hk]

/-- Witness for C4: pushing a handle onto the empty state creates the
cache for key `"o"` with the single pushed item, leaving key `"x"`
absent as before. -/
theorem C4_store_push_spec_witness :
    (NSRouteReuseStrategy.store envW stW rW (some ⟨some 9⟩)).2 = none ∧
    (NSRouteReuseStrategy.store envW stW rW (some ⟨some 9⟩)).1.cacheByOutlet
        (NSRouteReuseStrategy.findValidOutletAndKey envW stW (envW.findTop rW)).2 =
      some (DetachedStateCache.push
        ((stW.cacheByOutlet (NSRouteReuseStrategy.findValidOutletAndKey envW stW (envW.findTop rW)).2).getD [])
        { key := getSnapshotKey (envW.findTop rW), state := ⟨some 9⟩,
          isModal := decide (envW.modalNavigationDepth > 0) }) ∧
    (NSRouteReuseStrategy.store envW stW rW (some ⟨some 9⟩)).1.cacheByOutlet "x" =
      stW.cacheByOutlet "x" :=
  ⟨(C4_store_push_spec envW stW rW ⟨some 9⟩).1,
   (C4_store_push_spec envW stW rW ⟨some 9⟩).2.1,
   (C4_store_push_spec envW stW rW ⟨some 9⟩).2.2.1 "x" (by decide)⟩

/-- C5: when `store` is called with a null handle and the per-outlet
cache for the resolved outlet key is non-empty: if the top entry's key
equals the route's snapshot key, the top entry is popped and the
per-outlet cache is removed from `cacheByOutlet` when it becomes empty
(other caches and the outlets unchanged); if the keys differ, `store`
throws and the state is unchanged. -/
theorem C5_store_pop_spec (env : StrategyEnv) (st : StrategyState) (r : RouteSnapshot)
    (item : CacheItem) (rest : Cache)
    (hc : st.cacheByOutlet (NSRouteReuseStrategy.findValidOutletAndKey env st (env.findTop r)).2 =
      some (item :: rest)) :
    (item.key = getSnapshotKey (env.findTop r) →
      (NSRouteReuseStrategy.store env st r none).2 = none ∧
      (NSRouteReuseStrategy.store env st r none).1.cacheByOutlet
          (NSRouteReuseStrategy.findValidOutletAndKey env st (env.findTop r)).2 =
        (if rest.isEmpty then none else some rest) ∧
      (∀ k, k ≠ (NSRouteReuseStrategy.findValidOutletAndKey env st (env.findTop r)).2 →
        (NSRouteReuseStrategy.store env st r none).1.cacheByOutlet k = st.cacheByOutlet k) ∧
      (NSRouteReuseStrategy.store env st r none).1.outlets = st.outlets) ∧
    (item.key ≠ getSnapshotKey (env.findTop r) →
      (NSRouteReuseStrategy.store env st r none).2.isSome = true ∧
      (NSRouteReuseStrategy.store env st r none).1 = st) := by
  constructor
  · intro hkey
    cases rest with
    | nil =>
      refine ⟨?_, ?_, ?_, ?_⟩ <;>
        simp [NSRouteReuseStrategy.store, hc, hkey, DetachedStateCache.peek,
          DetachedStateCache.pop, DetachedStateCache.length]
      intro k hk
      simp [hk]
    | cons b bs =>
      refine ⟨?_, ?_, ?_, ?_⟩ <;>
        simp [NSRouteReuseStrategy.store, hc, hkey, DetachedStateCache.peek,
          DetachedStateCache.pop, DetachedStateCache.length]
      intro k hk
      simp [hk]
  · intro hkey
    constructor
    · simp [NSRouteReuseStrategy.store, hc, hkey, DetachedStateCache.peek]
    · simp [NSRouteReuseStrategy.store, hc, hkey, DetachedStateCache.peek]

/-- Witness for C5, both branches: popping the matching-key top item of
`stB` empties and removes the `"o"` cache; a mismatched key (`"z"` vs
`"r"`) throws and leaves `stZ` unchanged. -/
theorem C5_store_pop_spec_witness :
    ((NSRouteReuseStrategy.store envW stB rW none).2 = none ∧
      (NSRouteReuseStrategy.store envW stB rW none).1.cacheByOutlet
          (NSRouteReuseStrategy.findValidOutletAndKey envW stB (envW.findTop rW)).2 =
        (if ([] : Cache).isEmpty then none else some ([] : Cache))) ∧
    ((NSRouteReuseStrategy.store envW stZ rW none).2.isSome = true ∧
      (NSRouteReuseStrategy.store envW stZ rW none).1 = stZ) :=
  ⟨⟨((C5_store_pop_spec envW stB rW itemW [] (by decide)).1 (by decide)).1,
    ((C5_store_pop_spec envW stB rW itemW [] (by decide)).1 (by decide)).2.1⟩,
   (C5_store_pop_spec envW stZ rW ⟨"z", ⟨some 7⟩, false⟩ [] (by decide)).2 (by decide)⟩


/-- C9: `PageRouterOutlet.detach`, on an activated outlet, clears the
outlet's activated component and activated route and returns the
previously activated component ref; on a non-activated outlet it
returns `undefined` and changes nothing; and a subsequent `attach` with
that component ref and the prior activated route restores both fields
to their values before the `detach`. -/
theorem C9_outlet_detach_attach (s : PageRouterOutletState) :
    (s.activated = none → PageRouterOutlet.detach s = (none, s)) ∧
    (∀ c, s.activated = some c →
      (PageRouterOutlet.detach s).1 = some c ∧
      (PageRouterOutlet.detach s).2.activated = none ∧
      (PageRouterOutlet.detach s).2.activatedRoute = none) ∧
    (∀ c rt, s.activated = some c → s.activatedRoute = some rt →
      PageRouterOutlet.attach (PageRouterOutlet.detach s).2 c rt = s) := by
  refine ⟨?_, ?_, ?_⟩
  · intro h
    simp [PageRouterOutlet.detach, h]
  · intro c h
    simp [PageRouterOutlet.detach, h]
  · intro c rt h1 h2
    cases s with
    | mk a ar =>
      simp only at h1 h2
      subst h1
      subst h2
      simp [PageRouterOutlet.detach, PageRouterOutlet.attach]

/-- Witness for C9 on the concrete activation state `(3, 4)`: detach
returns component `3` and clears both fields, and the attach round trip
restores the state. -/
theorem C9_outlet_detach_attach_witness :
    (PageRouterOutlet.detach ⟨some 3, some 4⟩).1 = some 3 ∧
    (PageRouterOutlet.detach ⟨some 3, some 4⟩).2.activated = none ∧
    (PageRouterOutlet.detach ⟨some 3, some 4⟩).2.activatedRoute = none ∧
    PageRouterOutlet.attach (PageRouterOutlet.detach ⟨some 3, some 4⟩).2 3 4 = ⟨some 3, some 4⟩ :=
  ⟨((C9_outlet_detach_attach ⟨some 3, some 4⟩).2.1 3 rfl).1,
   ((C9_outlet_detach_attach ⟨some 3, some 4⟩).2.1 3 rfl).2.1,
   ((C9_outlet_detach_attach ⟨some 3, some 4⟩).2.1 3 rfl).2.2,
   (C9_outlet_detach_attach ⟨some 3, some 4⟩).2.2 3 4 rfl rfl⟩

/-- Evaluating `jsIndexOf` on a present element: it is non-negative and counts the
prefix strictly before the first occurrence. -/
theorem jsIndexOf_mem (l : List Nat) (n : Nat) (hn : n ∈ l) :
    0 ≤ ActionBar.jsIndexOf l n ∧
    ∃ pre post, l = pre ++ n :: post ∧ n ∉ pre ∧
      (ActionBar.jsIndexOf l n).toNat = pre.length := by
  induction l with
  | nil => cases hn
  | cons a t ih =>
    by_cases ha : a = n
    · subst ha
      exact ⟨by simp [ActionBar.jsIndexOf], [], t, rfl, by simp, by simp [ActionBar.jsIndexOf]⟩
    · have hnt : n ∈ t := by
        rcases List.mem_cons.mp hn with h | h
        · exact absurd h.symm ha
        · exact h
      obtain ⟨hge, pre, post, hdec, hnp, hlen⟩ := ih hnt
      have hneg : ¬ ActionBar.jsIndexOf t n < 0 := not_lt.mpr hge
      refine ⟨?_, a :: pre, post, by simp [hdec], ?_, ?_⟩
      · simp only [ActionBar.jsIndexOf, ha, if_false, hneg]
        omega
      · simp only [List.mem_cons, not_or]
        exact ⟨fun h => ha h.symm, hnp⟩
      · simp only [ActionBar.jsIndexOf, ha, if_false, hneg]
        simp only [List.length_cons, ← hlen]
        omega

/-- Evaluating `insertActionItemBefore` with `next` present in the collection
splits the collection at the first occurrence of `next` and inserts the
item immediately before it. -/
theorem insertActionItemBefore_spec (bar : NgActionBar) (item n : Nat)
    (hn : n ∈ bar.actionItems) :
    ∃ pre post, bar.actionItems = pre ++ n :: post ∧ n ∉ pre ∧
      (ActionBar.insertActionItemBefore bar item n).actionItems = pre ++ item :: n :: post := by
  obtain ⟨hge, pre, post, hdec, hnp, hlen⟩ := jsIndexOf_mem bar.actionItems n hn
  have hneg : ¬ ActionBar.jsIndexOf bar.actionItems n < 0 := not_lt.mpr hge
  refine ⟨pre, post, hdec, hnp, ?_⟩
  simp only [ActionBar.insertActionItemBefore, hneg, if_false, hlen]
  rw [hdec, List.take_left, List.drop_left]

/-- Removing an item that was not in the collection after splicing it in
at any position restores the collection. -/
theorem erase_splice (items : List Nat) (id : Nat) (p : Nat) (hid : id ∉ items) :
    (items.take p ++ id :: items.drop p).erase id = items := by
  have h1 : id ∉ items.take p := fun h => hid (List.take_subset _ _ h)
  rw [List.erase_append_right _ h1, List.erase_cons_head, List.take_append_drop]

/-- After `insertChild` of a fresh action item (any `next`, present or
absent), `removeChild` restores the action bar. -/
theorem removeChild_insertChild_actionItem (bar : NgActionBar) (id : Nat) (next : Option Nat)
    (hid : id ∉ bar.actionItems) :
    ActionBar.removeChild (ActionBar.insertChild bar (.actionItem id) next) (.actionItem id) = bar := by
  cases bar with
  | mk nav items title =>
    simp only at hid
    cases next with
    | none =>
      simp only [ActionBar.insertChild, ActionBar.addActionItem, ActionBar.appendActionItem,
        ActionBar.removeChild]
      have : (items ++ [id]).erase id = items := by
        rw [List.erase_append_right _ hid, List.erase_cons_head, List.append_nil]
      simp [this]
    | some n =>
      simp only [ActionBar.insertChild, ActionBar.addActionItem, ActionBar.insertActionItemBefore,
        ActionBar.removeChild]
      simp [erase_splice items id _ hid]

/-- C10: action-bar child-list management round-trips.  For every action
bar and child, `removeChild` after `insertChild` restores the parent:
a navigation button is set then cleared back to `null`; a fresh action
item is inserted immediately before the given `next` item when `next`
is an item of the bar (or appended when `next` is absent) and is then
removed from the item collection, restoring it; a title view is set then
cleared to `null`; and invisible nodes are ignored by both
operations. -/
theorem C10_actionbar_roundtrip (bar : NgActionBar) (next : Option Nat) :
    (∀ id, ActionBar.insertChild bar (.invisible id) next = bar ∧
      ActionBar.removeChild bar (.invisible id) = bar) ∧
    (∀ id, ActionBar.insertChild bar (.navButton id) next = { bar with navigationButton := some id } ∧
      ActionBar.removeChild (ActionBar.insertChild bar (.navButton id) next) (.navButton id) =
        { bar with navigationButton := none }) ∧
    (∀ id, ActionBar.insertChild bar (.view id) next = { bar with titleView := some id } ∧
      ActionBar.removeChild (ActionBar.insertChild bar (.view id) next) (.view id) =
        { bar with titleView := none }) ∧
    (∀ id, id ∉ bar.actionItems →
      (next = none →
        (ActionBar.insertChild bar (.actionItem id) next).actionItems = bar.actionItems ++ [id]) ∧
      (∀ n, next = some n → n ∈ bar.actionItems →
        ∃ pre post, bar.actionItems = pre ++ n :: post ∧ n ∉ pre ∧
          (ActionBar.insertChild bar (.actionItem id) next).actionItems = pre ++ id :: n :: post) ∧
      ActionBar.removeChild (ActionBar.insertChild bar (.actionItem id) next) (.actionItem id) = bar) := by
  refine ⟨fun id => ⟨rfl, rfl⟩, fun id => ⟨rfl, ?_⟩, fun id => ⟨rfl, ?_⟩, fun id hid => ⟨?_, ?_, ?_⟩⟩
  · simp [ActionBar.insertChild, ActionBar.removeChild]
  · simp [ActionBar.insertChild, ActionBar.removeChild]
  · intro hn
    subst hn
    simp [ActionBar.insertChild, ActionBar.addActionItem, ActionBar.appendActionItem]
  · intro n hn hmem
    subst hn
    simpa [ActionBar.insertChild, ActionBar.addActionItem] using
      insertActionItemBefore_spec bar id n hmem
  · exact removeChild_insertChild_actionItem bar id next hid

/-- Witness for C10 on the concrete bar with items `[1, 2]`: a fresh
item `5` is inserted immediately before `2` and removal restores the
bar, and a navigation-button round trip ends with the button cleared. -/
theorem C10_actionbar_roundtrip_witness :
    (∃ pre post, ([1, 2] : List Nat) = pre ++ 2 :: post ∧ 2 ∉ pre ∧
      (ActionBar.insertChild ⟨none, [1, 2], none⟩ (.actionItem 5) (some 2)).actionItems =
        pre ++ 5 :: 2 :: post) ∧
    ActionBar.removeChild (ActionBar.insertChild ⟨none, [1, 2], none⟩ (.actionItem 5) (some 2))
        (.actionItem 5) = ⟨none, [1, 2], none⟩ ∧
    ActionBar.removeChild (ActionBar.insertChild ⟨none, [1, 2], none⟩ (.navButton 7) (some 2))
        (.navButton 7) = { navigationButton := none, actionItems := [1, 2], titleView := none } :=
  ⟨((C10_actionbar_roundtrip ⟨none, [1, 2], none⟩ (some 2)).2.2.2 5 (by decide)).2.1 2 rfl
      (by decide),
   ((C10_actionbar_roundtrip ⟨none, [1, 2], none⟩ (some 2)).2.2.2 5 (by decide)).2.2,
   ((C10_actionbar_roundtrip ⟨none, [1, 2], none⟩ (some 2)).2.1 7).2⟩
